import Mathlib

/-!
Verification of the Black-Scholes option pricing core
(`src/BlackScholesModel.cpp`, namespace `BlackScholes`).

The C++ code computes with IEEE doubles; the shallow embedding models the
arithmetic over `ℝ`.  The finiteness checks of `OptionParameters::is_valid`
(`std::isfinite`) and the non-finite values that can arise in
`generate_price_curve` (the division by `num_points - 1 = 0` and the
product `0 * inf`) are modelled by an explicit type `FP` of IEEE double
values (finite reals, the two infinities and NaN); overflow of finite
arithmetic to infinity is not modelled, which is sound here because every
claim exercising the `FP` layer only involves exact small quantities.
-/

namespace BlackScholes

open scoped Classical

/-- Coefficient `a1` of `Model::normal_cdf` (Abramowitz-Stegun 7.1.26). -/
def a1 : ℝ := 0.254829592

/-- Coefficient `a2` of `Model::normal_cdf`. -/
def a2 : ℝ := -0.284496736

/-- Coefficient `a3` of `Model::normal_cdf`. -/
def a3 : ℝ := 1.421413741

/-- Coefficient `a4` of `Model::normal_cdf`. -/
def a4 : ℝ := -1.453152027

/-- Coefficient `a5` of `Model::normal_cdf`. -/
def a5 : ℝ := 1.061405429

/-- Coefficient `p` of `Model::normal_cdf`. -/
def p : ℝ := 0.3275911

/-- `Model::normal_cdf`: the code's standard-normal CDF approximation.
Mirrors the source line by line: `sign = (x < 0) ? -1 : 1`, `x = |x|`,
`t = 1/(1 + p*x)`, Horner evaluation of the degree-5 polynomial, and
`0.5 * (1 + sign * y)`. -/
noncomputable def normal_cdf (x : ℝ) : ℝ :=
  let sign : ℝ := if x < 0 then -1 else 1
  let ax : ℝ := |x|
  let t : ℝ := 1 / (1 + p * ax)
  let y : ℝ :=
    1 - (((((a5 * t + a4) * t) + a3) * t + a2) * t + a1) * t * Real.exp (-(ax * ax) / 2)
  0.5 * (1 + sign * y)

/-- `Model::normal_pdf`: `inv_sqrt_2pi * exp(-0.5*x*x)` with the source's
literal constant `0.3989422804014327`. -/
noncomputable def normal_pdf (x : ℝ) : ℝ :=
  0.3989422804014327 * Real.exp (-0.5 * x * x)

/-- `Model::calculate_d1`. -/
noncomputable def calculate_d1 (S K T r sigma : ℝ) : ℝ :=
  (Real.log (S / K) + (r + 0.5 * sigma * sigma) * T) / (sigma * Real.sqrt T)

/-- `Model::calculate_d2`. -/
noncomputable def calculate_d2 (d1 sigma T : ℝ) : ℝ :=
  d1 - sigma * Real.sqrt T

/-- `BlackScholes::OptionParameters` (finite-real view of the five fields). -/
structure OptionParameters where
  underlying_price : ℝ
  strike_price : ℝ
  time_to_expiration : ℝ
  risk_free_rate : ℝ
  volatility : ℝ

/-- `OptionParameters::is_valid` over the real-valued view: the four
positivity conjuncts of the source.  The five `std::isfinite` conjuncts of
the source hold identically for elements of `ℝ`; they are modelled
faithfully in the `FP` layer below (`OptionParametersFP.is_valid`). -/
def OptionParameters.is_valid (q : OptionParameters) : Prop :=
  0 < q.underlying_price ∧ 0 < q.strike_price ∧
    0 < q.time_to_expiration ∧ 0 < q.volatility

/-- `BlackScholes::OptionPrices`. -/
@[ext] structure OptionPrices where
  call_price : ℝ
  put_price : ℝ
  delta_call : ℝ
  delta_put : ℝ
  gamma : ℝ
  theta_call : ℝ
  theta_put : ℝ
  vega : ℝ
  rho_call : ℝ
  rho_put : ℝ

/-- Body of `Model::calculate_prices` after the validity guard, mirroring
the source's sequence of local bindings and the final struct literal
(including the `/ 365.25` and `/ 100.0` presentation scalings). -/
noncomputable def calculate_prices_core (q : OptionParameters) : OptionPrices :=
  let S := q.underlying_price
  let K := q.strike_price
  let T := q.time_to_expiration
  let r := q.risk_free_rate
  let sigma := q.volatility
  let d1 := calculate_d1 S K T r sigma
  let d2 := calculate_d2 d1 sigma T
  let N_d1 := normal_cdf d1
  let N_d2 := normal_cdf d2
  let N_neg_d1 := normal_cdf (-d1)
  let N_neg_d2 := normal_cdf (-d2)
  let phi_d1 := normal_pdf d1
  let discount_factor := Real.exp (-r * T)
  let sqrt_T := Real.sqrt T
  let call := S * N_d1 - K * discount_factor * N_d2
  let put := K * discount_factor * N_neg_d2 - S * N_neg_d1
  let delta_call_val := N_d1
  let delta_put_val := N_d1 - 1
  let gamma_val := phi_d1 / (S * sigma * sqrt_T)
  let theta_call_val := -(S * phi_d1 * sigma) / (2 * sqrt_T) - r * K * discount_factor * N_d2
  let theta_put_val := -(S * phi_d1 * sigma) / (2 * sqrt_T) + r * K * discount_factor * N_neg_d2
  let vega_val := S * phi_d1 * sqrt_T
  let rho_call_val := K * T * discount_factor * N_d2
  let rho_put_val := -K * T * discount_factor * N_neg_d2
  { call_price := call
    put_price := put
    delta_call := delta_call_val
    delta_put := delta_put_val
    gamma := gamma_val
    theta_call := theta_call_val / 365.25
    theta_put := theta_put_val / 365.25
    vega := vega_val / 100
    rho_call := rho_call_val / 100
    rho_put := rho_put_val / 100 }

/-- `Model::calculate_prices` with its defensive validity re-check; a thrown
`std::invalid_argument` is modelled as `Except.error` carrying the source's
message string. -/
noncomputable def calculate_prices (q : OptionParameters) : Except String OptionPrices :=
  if q.is_valid then Except.ok (calculate_prices_core q)
  else Except.error "Invalid parameters for Black-Scholes calculation"

/-- Body of `Model::call_price` after the validity guard (the single-leg
entry point recomputes d1, d2, the two CDF values and the discount factor). -/
noncomputable def call_price_core (q : OptionParameters) : ℝ :=
  let d1 := calculate_d1 q.underlying_price q.strike_price q.time_to_expiration
    q.risk_free_rate q.volatility
  let d2 := calculate_d2 d1 q.volatility q.time_to_expiration
  let N_d1 := normal_cdf d1
  let N_d2 := normal_cdf d2
  let discount_factor := Real.exp (-q.risk_free_rate * q.time_to_expiration)
  q.underlying_price * N_d1 - q.strike_price * discount_factor * N_d2

/-- `Model::call_price` with its validity guard. -/
noncomputable def call_price (q : OptionParameters) : Except String ℝ :=
  if q.is_valid then Except.ok (call_price_core q)
  else Except.error "Invalid parameters for Black-Scholes calculation"

/-- Body of `Model::put_price` after the validity guard. -/
noncomputable def put_price_core (q : OptionParameters) : ℝ :=
  let d1 := calculate_d1 q.underlying_price q.strike_price q.time_to_expiration
    q.risk_free_rate q.volatility
  let d2 := calculate_d2 d1 q.volatility q.time_to_expiration
  let N_neg_d1 := normal_cdf (-d1)
  let N_neg_d2 := normal_cdf (-d2)
  let discount_factor := Real.exp (-q.risk_free_rate * q.time_to_expiration)
  q.strike_price * discount_factor * N_neg_d2 - q.underlying_price * N_neg_d1

/-- `Model::put_price` with its validity guard. -/
noncomputable def put_price (q : OptionParameters) : Except String ℝ :=
  if q.is_valid then Except.ok (put_price_core q)
  else Except.error "Invalid parameters for Black-Scholes calculation"

/-- IEEE double values relevant to this code: finite reals, the two
infinities and NaN.  (Finite overflow to infinity is not modelled.) -/
inductive FP where
  | fin (val : ℝ) : FP
  | posInf : FP
  | negInf : FP
  | nan : FP

/-- `std::isfinite` on the `FP` view of a double. -/
def FP.isFinite : FP → Prop
  | FP.fin _ => True
  | _ => False

/-- The C++ comparison `v > 0.0` on the `FP` view of a double (false on NaN,
true on `+inf`). -/
def FP.gtZero : FP → Prop
  | FP.fin x => 0 < x
  | FP.posInf => True
  | _ => False

/-- IEEE addition on `FP` (no finite-overflow modelling). -/
noncomputable def FP.add : FP → FP → FP
  | FP.nan, _ => FP.nan
  | _, FP.nan => FP.nan
  | FP.fin x, FP.fin y => FP.fin (x + y)
  | FP.fin _, FP.posInf => FP.posInf
  | FP.posInf, FP.fin _ => FP.posInf
  | FP.fin _, FP.negInf => FP.negInf
  | FP.negInf, FP.fin _ => FP.negInf
  | FP.posInf, FP.posInf => FP.posInf
  | FP.negInf, FP.negInf => FP.negInf
  | FP.posInf, FP.negInf => FP.nan
  | FP.negInf, FP.posInf => FP.nan

/-- IEEE multiplication on `FP` (no finite-overflow modelling); in
particular `0 * (±inf) = NaN`. -/
noncomputable def FP.mul : FP → FP → FP
  | FP.nan, _ => FP.nan
  | _, FP.nan => FP.nan
  | FP.fin x, FP.fin y => FP.fin (x * y)
  | FP.fin x, FP.posInf => if x = 0 then FP.nan else if 0 < x then FP.posInf else FP.negInf
  | FP.posInf, FP.fin x => if x = 0 then FP.nan else if 0 < x then FP.posInf else FP.negInf
  | FP.fin x, FP.negInf => if x = 0 then FP.nan else if 0 < x then FP.negInf else FP.posInf
  | FP.negInf, FP.fin x => if x = 0 then FP.nan else if 0 < x then FP.negInf else FP.posInf
  | FP.posInf, FP.posInf => FP.posInf
  | FP.posInf, FP.negInf => FP.negInf
  | FP.negInf, FP.posInf => FP.negInf
  | FP.negInf, FP.negInf => FP.posInf

/-- IEEE division on `FP` (no finite-overflow modelling, negative zero
identified with zero): division of a nonzero finite value by zero yields a
signed infinity, `0/0` yields NaN. -/
noncomputable def FP.div : FP → FP → FP
  | FP.nan, _ => FP.nan
  | _, FP.nan => FP.nan
  | FP.fin x, FP.fin y =>
    if y = 0 then (if x = 0 then FP.nan else if 0 < x then FP.posInf else FP.negInf)
    else FP.fin (x / y)
  | FP.fin _, FP.posInf => FP.fin 0
  | FP.fin _, FP.negInf => FP.fin 0
  | FP.posInf, FP.fin y => if 0 ≤ y then FP.posInf else FP.negInf
  | FP.negInf, FP.fin y => if 0 ≤ y then FP.negInf else FP.posInf
  | FP.posInf, _ => FP.nan
  | FP.negInf, _ => FP.nan

/-- `BlackScholes::OptionParameters` at the IEEE-double level (used for the
construction/validation contract, where NaN and infinity inputs matter). -/
structure OptionParametersFP where
  underlying_price : FP
  strike_price : FP
  time_to_expiration : FP
  risk_free_rate : FP
  volatility : FP

/-- `OptionParameters::is_valid`, conjunct for conjunct from the source:
`S > 0 && K > 0 && T > 0 && sigma > 0 && isfinite(r) && isfinite(S) &&
isfinite(K) && isfinite(T) && isfinite(sigma)`. -/
def OptionParametersFP.is_valid (q : OptionParametersFP) : Prop :=
  q.underlying_price.gtZero ∧ q.strike_price.gtZero ∧
    q.time_to_expiration.gtZero ∧ q.volatility.gtZero ∧
    q.risk_free_rate.isFinite ∧ q.underlying_price.isFinite ∧
    q.strike_price.isFinite ∧ q.time_to_expiration.isFinite ∧
    q.volatility.isFinite

/-- The `OptionParameters(S, K, T, r, sigma)` constructor: stores the five
fields, then throws `std::invalid_argument("Invalid option parameters
provided")` unless `is_valid()` holds. -/
noncomputable def OptionParametersFP.construct (S K T r sigma : FP) :
    Except String OptionParametersFP :=
  let q : OptionParametersFP := ⟨S, K, T, r, sigma⟩
  if q.is_valid then Except.ok q else Except.error "Invalid option parameters provided"

/-- Sequential effectful map over a list, stopping at the first failure:
the exception-propagation behaviour of the `for` loop in
`Model::generate_price_curve` (a thrown exception discards the partially
built vector). -/
def exceptMapList {α : Type} (f : ℕ → Except String α) : List ℕ → Except String (List α)
  | [] => Except.ok []
  | i :: is =>
    match f i with
    | Except.error e => Except.error e
    | Except.ok a =>
      match exceptMapList f is with
      | Except.error e => Except.error e
      | Except.ok as => Except.ok (a :: as)

/-- `Model::generate_price_curve`.  The guard, `start_price`, `end_price`
and the loop are taken directly from the source.  `step` and each
`current_price = start_price + i * step` are computed at the `FP` level
because `num_points = 1` makes `step` a division by zero; the per-sample
`OptionParameters` construction (which throws on an invalid price) and the
calls to `call_price` / `put_price` follow. -/
noncomputable def generate_price_curve (base : OptionParameters) (price_range : ℝ)
    (num_points : ℤ) : Except String (List (ℝ × ℝ × ℝ)) :=
  if num_points ≤ 0 then Except.error "Number of points must be positive"
  else
    let start_price := max 0.01 (base.underlying_price - price_range)
    let end_price := base.underlying_price + price_range
    let step : FP := FP.div (FP.fin (end_price - start_price))
      (FP.fin ((num_points - 1 : ℤ) : ℝ))
    exceptMapList (fun i =>
      let current_price : FP := FP.add (FP.fin start_price) (FP.mul (FP.fin (i : ℝ)) step)
      match current_price with
      | FP.fin c =>
        let cp : OptionParameters := ⟨c, base.strike_price, base.time_to_expiration,
          base.risk_free_rate, base.volatility⟩
        if cp.is_valid then Except.ok (c, call_price_core cp, put_price_core cp)
        else Except.error "Invalid option parameters provided"
      | _ => Except.error "Invalid option parameters provided")
      (List.range num_points.toNat)

/-- The spec's reference algorithm for the standard-normal CDF, written
from the specification text of section 4.2: coefficients `a1 = 0.254829592`,
`a2 = -0.284496736`, `a3 = 1.421413741`, `a4 = -1.453152027`,
`a5 = 1.061405429`, `p = 0.3275911`; steps `sign = x < 0 ? -1 : 1`,
`x = |x|`, `t = 1/(1+p*x)`,
`y = 1 - (((((a5*t+a4)*t+a3)*t+a2)*t+a1)*t)*exp(-x^2/2)`,
result `0.5*(1+sign*y)`. -/
noncomputable def normal_cdf_spec (x : ℝ) : ℝ :=
  let sign : ℝ := if x < 0 then -1 else 1
  let ax : ℝ := |x|
  let t : ℝ := 1 / (1 + (0.3275911 : ℝ) * ax)
  let y : ℝ := 1 -
    ((((((1.061405429 : ℝ) * t + (-1.453152027 : ℝ)) * t + (1.421413741 : ℝ)) * t +
          (-0.284496736 : ℝ)) * t + (0.254829592 : ℝ)) * t) *
      Real.exp (-ax ^ 2 / 2)
  0.5 * (1 + sign * y)

/-- The spec's reference pricing algorithm (section 4.3 / claim C1), written
from the specification text: `d1 = (ln(S/K) + (r + 0.5*sigma^2)*T) /
(sigma*sqrt(T))`, `d2 = d1 - sigma*sqrt(T)`, `discount = exp(-r*T)`, the
call/put formulas, the Greeks, and the presentation scale factors 365.25,
100, 100 for theta, vega and rho. -/
noncomputable def referenceOptionPrices (q : OptionParameters) : OptionPrices :=
  let S := q.underlying_price
  let K := q.strike_price
  let T := q.time_to_expiration
  let r := q.risk_free_rate
  let sigma := q.volatility
  let d1 := (Real.log (S / K) + (r + 0.5 * sigma ^ 2) * T) / (sigma * Real.sqrt T)
  let d2 := d1 - sigma * Real.sqrt T
  let discount := Real.exp (-r * T)
  { call_price := S * normal_cdf d1 - K * discount * normal_cdf d2
    put_price := K * discount * normal_cdf (-d2) - S * normal_cdf (-d1)
    delta_call := normal_cdf d1
    delta_put := normal_cdf d1 - 1
    gamma := normal_pdf d1 / (S * sigma * Real.sqrt T)
    theta_call :=
      (-(S * normal_pdf d1 * sigma) / (2 * Real.sqrt T) - r * K * discount * normal_cdf d2) /
        365.25
    theta_put :=
      (-(S * normal_pdf d1 * sigma) / (2 * Real.sqrt T) + r * K * discount * normal_cdf (-d2)) /
        365.25
    vega := S * normal_pdf d1 * Real.sqrt T / 100
    rho_call := K * T * discount * normal_cdf d2 / 100
    rho_put := -(K * T * discount * normal_cdf (-d2)) / 100 }

/-- The clamped left end of the sampled price interval:
`start_price = max(0.01, S_base - price_range)`. -/
def curve_start (base : OptionParameters) (price_range : ℝ) : ℝ :=
  max 0.01 (base.underlying_price - price_range)

/-- The right end of the sampled price interval:
`end_price = S_base + price_range`. -/
def curve_end (base : OptionParameters) (price_range : ℝ) : ℝ :=
  base.underlying_price + price_range

/-- The real value of the loop's step:
`(end_price - start_price) / (num_points - 1)`. -/
noncomputable def curve_step_val (base : OptionParameters) (price_range : ℝ) (num_points : ℤ) : ℝ :=
  (curve_end base price_range - curve_start base price_range) / ((num_points - 1 : ℤ) : ℝ)

/-- The i-th sampled price, computed directly (not by accumulation):
`start_price + i * step`. -/
noncomputable def curve_sample (base : OptionParameters) (price_range : ℝ) (num_points : ℤ) (i : ℕ) : ℝ :=
  curve_start base price_range + (i : ℝ) * curve_step_val base price_range num_points

/-- The per-sample parameters: the sampled price substituted for `S`, the
base strike, expiration, rate and volatility unchanged. -/
noncomputable def curve_params (base : OptionParameters) (price_range : ℝ) (num_points : ℤ) (i : ℕ) :
    OptionParameters :=
  ⟨curve_sample base price_range num_points i, base.strike_price, base.time_to_expiration,
    base.risk_free_rate, base.volatility⟩

/-- The curve that `generate_price_curve` returns in the non-degenerate
case: one `(price, call, put)` triple per sample index. -/
noncomputable def curveList (base : OptionParameters) (price_range : ℝ) (num_points : ℤ) :
    List (ℝ × ℝ × ℝ) :=
  (List.range num_points.toNat).map (fun i =>
    (curve_sample base price_range num_points i,
      call_price_core (curve_params base price_range num_points i),
      put_price_core (curve_params base price_range num_points i)))

/-- Shorthand for the Horner evaluation
`(((((a5*t + a4)*t) + a3)*t + a2)*t + a1)*t` appearing in
`Model::normal_cdf`. -/
def hornerP (t : ℝ) : ℝ :=
  (((((a5 * t + a4) * t) + a3) * t + a2) * t + a1) * t

/-! ### Basic lemmas about the normal CDF approximation -/

lemma normal_cdf_of_nonneg {x : ℝ} (hx : 0 ≤ x) :
    normal_cdf x =
      0.5 * (1 + (1 - hornerP (1 / (1 + p * x)) * Real.exp (-(x * x) / 2))) := by
  simp only [normal_cdf, hornerP]
  rw [if_neg (not_lt.mpr hx)]
  simp only [abs_of_nonneg hx]
  ring

lemma normal_cdf_of_neg {x : ℝ} (hx : x < 0) :
    normal_cdf x =
      0.5 * (1 - (1 - hornerP (1 / (1 + p * -x)) * Real.exp (-(-x * -x) / 2))) := by
  simp only [normal_cdf, hornerP]
  rw [if_pos hx]
  simp only [abs_of_neg hx]
  ring

/-- The sign trick of the implementation makes `N(x) + N(-x) = 1` hold
exactly for every nonzero `x` (both branches share the polynomial value at
`|x|`). -/
lemma normal_cdf_add_neg {x : ℝ} (hx : x ≠ 0) :
    normal_cdf x + normal_cdf (-x) = 1 := by
  rcases hx.lt_or_lt with h | h
  · rw [normal_cdf_of_neg h, normal_cdf_of_nonneg (neg_nonneg.mpr h.le)]
    ring
  · have h' : -x < 0 := neg_neg_of_pos h
    rw [normal_cdf_of_nonneg h.le, normal_cdf_of_neg h']
    ring_nf

/-- At `x = 0` the implementation returns `0.5*(1 + (1 - (a1+a2+a3+a4+a5)))
= 0.5*(1 + 10⁻⁹)`, not exactly `1/2`. -/
lemma normal_cdf_zero : normal_cdf 0 = 1000000001 / 2000000000 := by
  rw [normal_cdf_of_nonneg le_rfl]
  norm_num [hornerP, a1, a2, a3, a4, a5, p, Real.exp_zero]

/-! ### Claims C7, C2, C3, C1 -/

/-- Claim C7: the standard normal CDF is computed, for every input, by the
Abramowitz-Stegun rational approximation (7.1.26) with exactly the
coefficients a1..a5, p of the spec, following the steps sign/abs/t/y/result;
it is a total function with no error conditions. -/
theorem claim7_normal_cdf_follows_spec (x : ℝ) : normal_cdf x = normal_cdf_spec x := by
  simp only [normal_cdf, normal_cdf_spec, a1, a2, a3, a4, a5, p]
  rw [show (-(|x| * |x|) / 2 : ℝ) = -|x| ^ 2 / 2 by ring]

/-- Claim C2: construction of `OptionParameters` from five doubles succeeds
iff S > 0, K > 0, T > 0, sigma > 0 and all five values are finite;
otherwise it fails with the InvalidParameter message; in particular S=0,
K=-5, T=0, sigma=0 and r=NaN each independently fail; and `is_valid` is
exactly this predicate (a total query). -/
theorem claim2_construction_validation :
    (∀ S K T r sigma : FP,
        (∃ q, OptionParametersFP.construct S K T r sigma = Except.ok q) ↔
          S.gtZero ∧ K.gtZero ∧ T.gtZero ∧ sigma.gtZero ∧
            r.isFinite ∧ S.isFinite ∧ K.isFinite ∧ T.isFinite ∧ sigma.isFinite) ∧
    (∀ S K T r sigma : FP,
        OptionParametersFP.construct S K T r sigma =
            Except.error "Invalid option parameters provided" ↔
          ¬(S.gtZero ∧ K.gtZero ∧ T.gtZero ∧ sigma.gtZero ∧
            r.isFinite ∧ S.isFinite ∧ K.isFinite ∧ T.isFinite ∧ sigma.isFinite)) ∧
    (∀ q : OptionParametersFP,
        q.is_valid ↔
          q.underlying_price.gtZero ∧ q.strike_price.gtZero ∧
            q.time_to_expiration.gtZero ∧ q.volatility.gtZero ∧
            q.risk_free_rate.isFinite ∧ q.underlying_price.isFinite ∧
            q.strike_price.isFinite ∧ q.time_to_expiration.isFinite ∧
            q.volatility.isFinite) ∧
    OptionParametersFP.construct (FP.fin 0) (FP.fin 100) (FP.fin 1) (FP.fin (1/20))
        (FP.fin (1/5)) = Except.error "Invalid option parameters provided" ∧
    OptionParametersFP.construct (FP.fin 100) (FP.fin (-5)) (FP.fin 1) (FP.fin (1/20))
        (FP.fin (1/5)) = Except.error "Invalid option parameters provided" ∧
    OptionParametersFP.construct (FP.fin 100) (FP.fin 100) (FP.fin 0) (FP.fin (1/20))
        (FP.fin (1/5)) = Except.error "Invalid option parameters provided" ∧
    OptionParametersFP.construct (FP.fin 100) (FP.fin 100) (FP.fin 1) (FP.fin (1/20))
        (FP.fin 0) = Except.error "Invalid option parameters provided" ∧
    OptionParametersFP.construct (FP.fin 100) (FP.fin 100) (FP.fin 1) FP.nan
        (FP.fin (1/5)) = Except.error "Invalid option parameters provided" := by
  refine ⟨?_, ?_, ?_, ?_, ?_, ?_, ?_, ?_⟩
  · intro S K T r sigma
    constructor
    · rintro ⟨q, hq⟩
      by_cases hv : (OptionParametersFP.mk S K T r sigma).is_valid
      · exact hv
      · simp only [OptionParametersFP.construct, if_neg hv] at hq
        exact Except.noConfusion hq
    · intro hpred
      refine ⟨OptionParametersFP.mk S K T r sigma, ?_⟩
      simp only [OptionParametersFP.construct, if_pos
        (show (OptionParametersFP.mk S K T r sigma).is_valid from hpred)]
  · intro S K T r sigma
    constructor
    · intro hq hv
      simp only [OptionParametersFP.construct,
        if_pos (show (OptionParametersFP.mk S K T r sigma).is_valid from hv)] at hq
      exact Except.noConfusion hq
    · intro hv
      simp only [OptionParametersFP.construct]
      exact if_neg hv
  · intro q
    exact Iff.rfl
  · norm_num [OptionParametersFP.construct, OptionParametersFP.is_valid, FP.gtZero, FP.isFinite]
  · norm_num [OptionParametersFP.construct, OptionParametersFP.is_valid, FP.gtZero, FP.isFinite]
  · norm_num [OptionParametersFP.construct, OptionParametersFP.is_valid, FP.gtZero, FP.isFinite]
  · norm_num [OptionParametersFP.construct, OptionParametersFP.is_valid, FP.gtZero, FP.isFinite]
  · norm_num [OptionParametersFP.construct, OptionParametersFP.is_valid, FP.gtZero, FP.isFinite]

/-- Claim C3: for a valid parameter set the single-leg entry points return
exactly the `call_price` / `put_price` fields of the full computation (the
same formula, no independent approximation). -/
theorem claim3_single_leg_consistency (q : OptionParameters) (h : q.is_valid) :
    call_price q = Except.map OptionPrices.call_price (calculate_prices q) ∧
    put_price q = Except.map OptionPrices.put_price (calculate_prices q) := by
  constructor
  · rw [call_price, calculate_prices, if_pos h, if_pos h]
    rfl
  · rw [put_price, calculate_prices, if_pos h, if_pos h]
    rfl

/-- Witness for C3 at the concrete parameters S=100, K=105, T=1, r=0.05,
sigma=0.2. -/
theorem claim3_witness :
    (OptionParameters.mk 100 105 1 (1/20) (1/5)).is_valid ∧
      call_price (OptionParameters.mk 100 105 1 (1/20) (1/5)) =
        Except.map OptionPrices.call_price
          (calculate_prices (OptionParameters.mk 100 105 1 (1/20) (1/5))) := by
  have hv : (OptionParameters.mk 100 105 1 (1/20) (1/5)).is_valid := by
    refine ⟨by norm_num, by norm_num, by norm_num, by norm_num⟩
  exact ⟨hv, (claim3_single_leg_consistency _ hv).1⟩

/-- Claim C1: on a valid parameter set the full computation returns exactly
the spec's reference algorithm values (d1, d2, discount, call, put, the
deltas, gamma, and the theta/vega/rho raw expressions divided by 365.25,
100, 100). -/
theorem claim1_calculate_prices_matches_reference (q : OptionParameters) (h : q.is_valid) :
    calculate_prices q = Except.ok (referenceOptionPrices q) := by
  rw [calculate_prices, if_pos h]
  refine congrArg Except.ok ?_
  simp only [calculate_prices_core, referenceOptionPrices, calculate_d1, calculate_d2]
  rw [show (Real.log (q.underlying_price / q.strike_price) +
      (q.risk_free_rate + 0.5 * q.volatility ^ 2) * q.time_to_expiration) /
      (q.volatility * Real.sqrt q.time_to_expiration) =
      (Real.log (q.underlying_price / q.strike_price) +
      (q.risk_free_rate + 0.5 * q.volatility * q.volatility) * q.time_to_expiration) /
      (q.volatility * Real.sqrt q.time_to_expiration) by ring]
  refine OptionPrices.ext ?_ ?_ ?_ ?_ ?_ ?_ ?_ ?_ ?_ ?_ <;> ring

/-- Witness for C1 at the concrete parameters S=100, K=105, T=1, r=0.05,
sigma=0.2. -/
theorem claim1_witness :
    (OptionParameters.mk 100 105 1 (1/20) (1/5)).is_valid ∧
      calculate_prices (OptionParameters.mk 100 105 1 (1/20) (1/5)) =
        Except.ok (referenceOptionPrices (OptionParameters.mk 100 105 1 (1/20) (1/5))) := by
  have hv : (OptionParameters.mk 100 105 1 (1/20) (1/5)).is_valid := by
    refine ⟨by norm_num, by norm_num, by norm_num, by norm_num⟩
  exact ⟨hv, claim1_calculate_prices_matches_reference _ hv⟩

/-! ### Claim C6: put-call parity -/

/-- Claim C6 (amended): for any valid parameters whose `d1` and `d2` are
both nonzero, put-call parity holds exactly (hence within any positive
tolerance): `call - put = S - K*exp(-r*T)`.  (At `d1 = 0` or `d2 = 0` the
sign convention `sign = x < 0 ? -1 : 1` makes `N(x) + N(-x) = 1 + 10⁻⁹`
instead of `1`, and the parity defect is `S*10⁻⁹` resp. `K*exp(-r*T)*10⁻⁹`,
which exceeds the claimed 1e-9 tolerance; see the counterexample.) -/
theorem claim6_put_call_parity (q : OptionParameters) (hvalid : q.is_valid)
    (hd1 : calculate_d1 q.underlying_price q.strike_price q.time_to_expiration
      q.risk_free_rate q.volatility ≠ 0)
    (hd2 : calculate_d2 (calculate_d1 q.underlying_price q.strike_price q.time_to_expiration
      q.risk_free_rate q.volatility) q.volatility q.time_to_expiration ≠ 0) :
    call_price q = Except.ok (call_price_core q) ∧
    put_price q = Except.ok (put_price_core q) ∧
    call_price_core q - put_price_core q =
      q.underlying_price -
        q.strike_price * Real.exp (-q.risk_free_rate * q.time_to_expiration) := by
  refine ⟨by rw [call_price, if_pos hvalid], by rw [put_price, if_pos hvalid], ?_⟩
  have h1 := normal_cdf_add_neg hd1
  have h2 := normal_cdf_add_neg hd2
  simp only [call_price_core, put_price_core]
  linear_combination q.underlying_price * h1 -
    q.strike_price * Real.exp (-q.risk_free_rate * q.time_to_expiration) * h2

/-- Witness for C6 at S=100, K=100, T=1, r=0.05, sigma=0.2, where
d1 = 0.35 and d2 = 0.15 are both nonzero. -/
theorem claim6_witness :
    (OptionParameters.mk 100 100 1 (1/20) (1/5)).is_valid ∧
    calculate_d1 (100:ℝ) 100 1 (1/20) (1/5) ≠ 0 ∧
    calculate_d2 (calculate_d1 (100:ℝ) 100 1 (1/20) (1/5)) (1/5) 1 ≠ 0 ∧
    call_price_core (OptionParameters.mk 100 100 1 (1/20) (1/5)) -
        put_price_core (OptionParameters.mk 100 100 1 (1/20) (1/5)) =
      100 - 100 * Real.exp (-(1/20) * 1) := by
  have hv : (OptionParameters.mk 100 100 1 (1/20) (1/5)).is_valid := by
    refine ⟨by norm_num, by norm_num, by norm_num, by norm_num⟩
  have e1 : calculate_d1 (100:ℝ) 100 1 (1/20) (1/5) = 7/20 := by
    rw [calculate_d1, show ((100:ℝ)/100) = 1 by norm_num, Real.log_one, Real.sqrt_one]
    norm_num
  have hd1 : calculate_d1 (100:ℝ) 100 1 (1/20) (1/5) ≠ 0 := by
    rw [e1]; norm_num
  have hd2 : calculate_d2 (calculate_d1 (100:ℝ) 100 1 (1/20) (1/5)) (1/5) 1 ≠ 0 := by
    rw [e1, calculate_d2, Real.sqrt_one]; norm_num
  exact ⟨hv, hd1, hd2, (claim6_put_call_parity _ hv hd1 hd2).2.2⟩

/-- Counterexample to C6 as stated: at S=100, K=100, T=1, r=-0.125,
sigma=0.5 (a valid parameter set, every input a dyadic double, so that the
IEEE program computes `0.5*sigma*sigma = 0.125`, `r + 0.125 = 0`,
`log(100/100) = 0` and hence `d1 = 0` exactly) we get
`call - put - (S - K*exp(-r*T)) = 100 * 10⁻⁹ = 10⁻⁷`, which exceeds the
claimed tolerance 1e-9. -/
theorem claim6_counterexample :
    (OptionParameters.mk 100 100 1 (-(1/8)) (1/2)).is_valid ∧
    (1e-9 : ℝ) <
      |call_price_core (OptionParameters.mk 100 100 1 (-(1/8)) (1/2)) -
          put_price_core (OptionParameters.mk 100 100 1 (-(1/8)) (1/2)) -
          (100 - 100 * Real.exp (-(-(1/8)) * 1))| := by
  have hv : (OptionParameters.mk 100 100 1 (-(1/8)) (1/2)).is_valid := by
    refine ⟨by norm_num, by norm_num, by norm_num, by norm_num⟩
  refine ⟨hv, ?_⟩
  have e1 : calculate_d1 (100:ℝ) 100 1 (-(1/8)) (1/2) = 0 := by
    rw [calculate_d1, show ((100:ℝ)/100) = 1 by norm_num, Real.log_one, Real.sqrt_one]
    norm_num
  have e2 : calculate_d2 (0:ℝ) (1/2) 1 = -(1/2) := by
    rw [calculate_d2, Real.sqrt_one]; norm_num
  have hsym : normal_cdf (1/2) + normal_cdf (-(1/2)) = 1 :=
    normal_cdf_add_neg (by norm_num)
  have hcall : call_price_core (OptionParameters.mk 100 100 1 (-(1/8)) (1/2)) =
      100 * normal_cdf 0 - 100 * Real.exp (1/8) * normal_cdf (-(1/2)) := by
    simp only [call_price_core]
    rw [e1, e2]
    norm_num
  have hput : put_price_core (OptionParameters.mk 100 100 1 (-(1/8)) (1/2)) =
      100 * Real.exp (1/8) * normal_cdf (1/2) - 100 * normal_cdf 0 := by
    simp only [put_price_core]
    rw [e1, e2]
    norm_num
  rw [show (-(-(1/8)) * 1 : ℝ) = 1/8 by norm_num, hcall, hput]
  have key : 100 * normal_cdf 0 - 100 * Real.exp (1/8) * normal_cdf (-(1/2)) -
      (100 * Real.exp (1/8) * normal_cdf (1/2) - 100 * normal_cdf 0) -
      (100 - 100 * Real.exp (1/8)) = 1e-7 := by
    rw [normal_cdf_zero]
    linear_combination (-(100 * Real.exp (1/8))) * hsym
  rw [key, abs_of_pos (by norm_num : (0:ℝ) < 1e-7)]
  norm_num

/-! ### Lemmas about the curve generator -/

lemma exceptMapList_ok {α : Type} (f : ℕ → Except String α) (g : ℕ → α) :
    ∀ l : List ℕ, (∀ i ∈ l, f i = Except.ok (g i)) →
      exceptMapList f l = Except.ok (l.map g) := by
  intro l
  induction l with
  | nil => intro _; rfl
  | cons i is ih =>
    intro h
    rw [exceptMapList, h i (List.mem_cons_self i is),
      ih (fun j hj => h j (List.mem_cons_of_mem i hj)), List.map_cons]

lemma exceptMapList_length {α : Type} (f : ℕ → Except String α) :
    ∀ (l : List ℕ) (as : List α), exceptMapList f l = Except.ok as → as.length = l.length := by
  intro l
  induction l with
  | nil =>
    intro as h
    rw [exceptMapList] at h
    cases h
    rfl
  | cons i is ih =>
    intro as h
    rw [exceptMapList] at h
    rcases hfi : f i with e | a
    · rw [hfi] at h
      exact absurd h (by simp)
    · rw [hfi] at h
      rcases hrest : exceptMapList f is with e | as'
      · rw [hrest] at h
        exact absurd h (by simp)
      · rw [hrest] at h
        cases h
        simp [ih as' hrest]

/-- When every sampled price is a positive real and the base strike,
expiration and volatility are positive, the curve generator succeeds and
returns exactly the direct-formula sample list. -/
lemma generate_price_curve_eq_ok (base : OptionParameters) (price_range : ℝ) (n : ℤ)
    (hn : 2 ≤ n)
    (hpos : ∀ i : ℕ, i < n.toNat → 0 < curve_sample base price_range n i)
    (hK : 0 < base.strike_price) (hT : 0 < base.time_to_expiration)
    (hsig : 0 < base.volatility) :
    generate_price_curve base price_range n = Except.ok (curveList base price_range n) := by
  have hden : ((n - 1 : ℤ) : ℝ) ≠ 0 := by
    rw [Int.cast_ne_zero]
    omega
  simp only [generate_price_curve]
  rw [if_neg (by omega : ¬ n ≤ 0)]
  have hstep : FP.div (FP.fin (base.underlying_price + price_range -
      max 0.01 (base.underlying_price - price_range))) (FP.fin ((n - 1 : ℤ) : ℝ)) =
      FP.fin (curve_step_val base price_range n) := by
    rw [FP.div, if_neg hden, curve_step_val, curve_start, curve_end]
  rw [hstep, curveList]
  apply exceptMapList_ok
  intro i hi
  rw [List.mem_range] at hi
  have hci : 0 < curve_sample base price_range n i := hpos i hi
  have hmul : FP.mul (FP.fin (i : ℝ)) (FP.fin (curve_step_val base price_range n)) =
      FP.fin ((i : ℝ) * curve_step_val base price_range n) := rfl
  have hadd : FP.add (FP.fin (max 0.01 (base.underlying_price - price_range)))
      (FP.fin ((i : ℝ) * curve_step_val base price_range n)) =
      FP.fin (curve_sample base price_range n i) := rfl
  rw [hmul, hadd]
  have hcv : (OptionParameters.mk (curve_sample base price_range n i) base.strike_price
      base.time_to_expiration base.risk_free_rate base.volatility).is_valid :=
    ⟨hci, hK, hT, hsig⟩
  simp only [if_pos hcv]
  rfl

/-! ### Claims C5 and C10 -/

/-- Claim C5 (amended): a point count `n ≤ 0` fails with InvalidParameter
carrying the message "number of points must be positive", and on failure no
partial (truncated) sequence is returned: every successful call returns
exactly `n` triples.  (The original claim's second half is false: the code
does not check `price_range` at all, see the counterexample — a negative
range produces a full, decreasing curve rather than an error.) -/
theorem claim5_point_count_guard (base : OptionParameters) (price_range : ℝ) (n : ℤ) :
    (n ≤ 0 → generate_price_curve base price_range n =
      Except.error "Number of points must be positive") ∧
    (∀ l, generate_price_curve base price_range n = Except.ok l → l.length = n.toNat) := by
  constructor
  · intro hn
    rw [generate_price_curve, if_pos hn]
  · intro l hl
    by_cases hn : n ≤ 0
    · rw [generate_price_curve, if_pos hn] at hl
      exact absurd hl (by simp)
    · simp only [generate_price_curve] at hl
      rw [if_neg hn] at hl
      have := exceptMapList_length _ _ _ hl
      simpa using this

/-- Witness for C5: `n = 0` fails with the guard message at concrete valid
base parameters. -/
theorem claim5_witness :
    generate_price_curve (OptionParameters.mk 100 100 1 (1/20) (1/5)) 50 0 =
      Except.error "Number of points must be positive" :=
  (claim5_point_count_guard (OptionParameters.mk 100 100 1 (1/20) (1/5)) 50 0).1 le_rfl

/-- Counterexample to C5 as stated: a negative `price_range` is NOT
rejected.  At the valid base S=100, K=100, T=1, r=0, sigma=0.2 with
range = -50 and n = 2, the code returns a full two-point curve with
decreasing prices 150, 50 instead of an InvalidParameter error. -/
theorem claim5_counterexample :
    (OptionParameters.mk 100 100 1 0 (1/5)).is_valid ∧ (-50 : ℝ) ≤ 0 ∧
    generate_price_curve (OptionParameters.mk 100 100 1 0 (1/5)) (-50) 2 =
      Except.ok
        [((150:ℝ), call_price_core (OptionParameters.mk 150 100 1 0 (1/5)),
            put_price_core (OptionParameters.mk 150 100 1 0 (1/5))),
          ((50:ℝ), call_price_core (OptionParameters.mk 50 100 1 0 (1/5)),
            put_price_core (OptionParameters.mk 50 100 1 0 (1/5)))] := by
  have hv : (OptionParameters.mk 100 100 1 0 (1/5)).is_valid := by
    refine ⟨by norm_num, by norm_num, by norm_num, by norm_num⟩
  have hstart : curve_start (OptionParameters.mk 100 100 1 0 (1/5)) (-50) = 150 := by
    rw [curve_start]
    rw [show ((OptionParameters.mk 100 100 1 0 (1/5) :
      OptionParameters).underlying_price - (-50) : ℝ) = 150 by norm_num]
    rw [max_eq_right (by norm_num : (0.01:ℝ) ≤ 150)]
  have hstep : curve_step_val (OptionParameters.mk 100 100 1 0 (1/5)) (-50) 2 = -100 := by
    rw [curve_step_val, hstart, curve_end]
    norm_num
  have hs0 : curve_sample (OptionParameters.mk 100 100 1 0 (1/5)) (-50) 2 0 = 150 := by
    rw [curve_sample, hstart, hstep]
    norm_num
  have hs1 : curve_sample (OptionParameters.mk 100 100 1 0 (1/5)) (-50) 2 1 = 50 := by
    rw [curve_sample, hstart, hstep]
    norm_num
  have hpos : ∀ i : ℕ, i < ((2:ℤ)).toNat →
      0 < curve_sample (OptionParameters.mk 100 100 1 0 (1/5)) (-50) 2 i := by
    intro i hi
    have h01 : i = 0 ∨ i = 1 := by omega
    rcases h01 with h | h
    · rw [h, hs0]; norm_num
    · rw [h, hs1]; norm_num
  have hok := generate_price_curve_eq_ok (OptionParameters.mk 100 100 1 0 (1/5))
    (-50) 2 le_rfl hpos (by norm_num) (by norm_num) (by norm_num)
  refine ⟨hv, by norm_num, ?_⟩
  rw [hok]
  refine congrArg Except.ok ?_
  rw [curveList, show ((2:ℤ)).toNat = 2 from rfl,
    show List.range 2 = [0, 1] from rfl, List.map_cons, List.map_cons, List.map_nil]
  rw [curve_params, curve_params, hs0, hs1]

/-- Claim C10: with `num_points = 1` (accepted by the guard, which only
rejects `n ≤ 0`) the curve generator never returns a one-point curve: the
step is a division by zero, `0 * step` is NaN, the per-sample parameter
construction fails, and the call reports InvalidParameter. -/
theorem claim10_single_point_fails (base : OptionParameters) (price_range : ℝ)
    (_hvalid : base.is_valid) (_hr : 0 < price_range) :
    generate_price_curve base price_range 1 =
      Except.error "Invalid option parameters provided" := by
  simp only [generate_price_curve]
  rw [if_neg (by norm_num : ¬ (1 : ℤ) ≤ 0)]
  have h1 : ((1 : ℤ)).toNat = 1 := rfl
  have hr1 : List.range 1 = [0] := rfl
  rw [h1, hr1]
  have hz : (((1 : ℤ) - 1 : ℤ) : ℝ) = 0 := by norm_num
  rw [hz]
  set d := base.underlying_price + price_range - max 0.01 (base.underlying_price - price_range)
    with hd
  have hnan : FP.add (FP.fin (max 0.01 (base.underlying_price - price_range)))
      (FP.mul (FP.fin ((0 : ℕ) : ℝ)) (FP.div (FP.fin d) (FP.fin 0))) = FP.nan := by
    rcases lt_trichotomy d 0 with h | h | h
    · rw [FP.div, if_pos rfl, if_neg (ne_of_lt h), if_neg (not_lt.mpr h.le)]
      rw [FP.mul, if_pos (by norm_num : ((0:ℕ):ℝ) = 0)]
      rfl
    · rw [FP.div, if_pos rfl, if_pos h]
      rfl
    · rw [FP.div, if_pos rfl, if_neg (ne_of_gt h), if_pos h]
      rw [FP.mul, if_pos (by norm_num : ((0:ℕ):ℝ) = 0)]
      rfl
  rw [exceptMapList, hnan, exceptMapList]

/-- Witness for C10 at concrete valid base parameters and range 50. -/
theorem claim10_witness :
    (OptionParameters.mk 100 100 1 (1/20) (1/5)).is_valid ∧ (0:ℝ) < 50 ∧
    generate_price_curve (OptionParameters.mk 100 100 1 (1/20) (1/5)) 50 1 =
      Except.error "Invalid option parameters provided" := by
  have hv : (OptionParameters.mk 100 100 1 (1/20) (1/5)).is_valid := by
    refine ⟨by norm_num, by norm_num, by norm_num, by norm_num⟩
  exact ⟨hv, by norm_num, claim10_single_point_fails _ _ hv (by norm_num)⟩

/-! ### Claim C4 -/

/-- Claim C4 (amended): for a valid base, `price_range > 0`, `n ≥ 2` and —
the amendment — `S_base + price_range > 0.01` (so that the clamped
`start = max(0.01, S_base - range)` is strictly below `end`),
`generate_price_curve` returns exactly the direct-formula sample list:
`n` triples with i-th price `start + i*step`, strictly increasing prices,
first price `start`, last price `end`, and per-triple call/put values equal
to the single-leg prices at the substituted sample.  (Without the
amendment the clamp can make `start ≥ end`, so `step ≤ 0` and the prices
are constant or decreasing; see the counterexample.) -/
theorem claim4_price_curve (base : OptionParameters) (price_range : ℝ) (n : ℤ)
    (hv : base.is_valid) (hr : 0 < price_range) (hn : 2 ≤ n)
    (hse : 0.01 < base.underlying_price + price_range) :
    generate_price_curve base price_range n = Except.ok (curveList base price_range n) ∧
    (curveList base price_range n).length = n.toNat ∧
    ((curveList base price_range n).map Prod.fst).Pairwise (fun x y => x < y) ∧
    ((curveList base price_range n).map Prod.fst).head? = some (curve_start base price_range) ∧
    ((curveList base price_range n).map Prod.fst).getLast? =
      some (curve_end base price_range) := by
  obtain ⟨hS, hK, hT, hsig⟩ := hv
  have hlt : curve_start base price_range < curve_end base price_range := by
    rw [curve_start, curve_end]
    exact max_lt hse (by linarith)
  have hden0 : (0:ℝ) < ((n - 1 : ℤ) : ℝ) := by
    exact_mod_cast (by omega : (0:ℤ) < n - 1)
  have hstep : 0 < curve_step_val base price_range n := div_pos (sub_pos.mpr hlt) hden0
  have hstartpos : 0 < curve_start base price_range := by
    rw [curve_start]
    exact lt_of_lt_of_le (by norm_num) (le_max_left _ _)
  have hpos : ∀ i : ℕ, i < n.toNat → 0 < curve_sample base price_range n i := by
    intro i _
    rw [curve_sample]
    have hge : (0:ℝ) ≤ (i:ℝ) * curve_step_val base price_range n :=
      mul_nonneg (Nat.cast_nonneg i) hstep.le
    linarith
  have hok := generate_price_curve_eq_ok base price_range n hn hpos hK hT hsig
  have hmono : ∀ i j : ℕ, i < j →
      curve_sample base price_range n i < curve_sample base price_range n j := by
    intro i j hij
    rw [curve_sample, curve_sample]
    have hc : (i:ℝ) < (j:ℝ) := Nat.cast_lt.mpr hij
    have := mul_lt_mul_of_pos_right hc hstep
    linarith
  have hmap : (curveList base price_range n).map Prod.fst =
      (List.range n.toNat).map (curve_sample base price_range n) := by
    rw [curveList, List.map_map]
    rfl
  refine ⟨hok, ?_, ?_, ?_, ?_⟩
  · rw [curveList, List.length_map, List.length_range]
  · rw [hmap]
    exact List.Pairwise.map _ (fun a b hab => hmono a b hab)
      (List.pairwise_lt_range n.toNat)
  · rw [hmap]
    obtain ⟨k, hk⟩ : ∃ k, n.toNat = k + 1 := ⟨n.toNat - 1, by omega⟩
    rw [hk, List.range_succ_eq_map, List.map_cons, List.head?_cons]
    rw [curve_sample]
    norm_num
  · rw [hmap]
    obtain ⟨k, hk⟩ : ∃ k, n.toNat = k + 1 := ⟨n.toNat - 1, by omega⟩
    have hkn : ((k:ℝ)) = ((n - 1 : ℤ) : ℝ) := by
      have h1 : (k : ℤ) = n - 1 := by omega
      exact_mod_cast h1
    rw [hk, List.range_succ, List.map_append, List.map_cons, List.map_nil,
      List.getLast?_concat]
    rw [curve_sample, hkn, curve_step_val, mul_comm,
      div_mul_cancel₀ _ (ne_of_gt hden0)]
    rw [show curve_start base price_range +
      (curve_end base price_range - curve_start base price_range) =
      curve_end base price_range by ring]

/-- Witness for C4 at the spec's example: S=100, K=100, T=1, r=0.05,
sigma=0.2, range 50, n = 5 (start 50, end 150). -/
theorem claim4_witness :
    (OptionParameters.mk 100 100 1 (1/20) (1/5)).is_valid ∧ (0:ℝ) < 50 ∧ (2:ℤ) ≤ 5 ∧
    (0.01 : ℝ) < 100 + 50 ∧
    (generate_price_curve (OptionParameters.mk 100 100 1 (1/20) (1/5)) 50 5 =
        Except.ok (curveList (OptionParameters.mk 100 100 1 (1/20) (1/5)) 50 5) ∧
      (curveList (OptionParameters.mk 100 100 1 (1/20) (1/5)) 50 5).length = (5:ℤ).toNat ∧
      ((curveList (OptionParameters.mk 100 100 1 (1/20) (1/5)) 50 5).map
        Prod.fst).Pairwise (fun x y => x < y) ∧
      ((curveList (OptionParameters.mk 100 100 1 (1/20) (1/5)) 50 5).map Prod.fst).head? =
        some (curve_start (OptionParameters.mk 100 100 1 (1/20) (1/5)) 50) ∧
      ((curveList (OptionParameters.mk 100 100 1 (1/20) (1/5)) 50 5).map Prod.fst).getLast? =
        some (curve_end (OptionParameters.mk 100 100 1 (1/20) (1/5)) 50)) := by
  have hv : (OptionParameters.mk 100 100 1 (1/20) (1/5)).is_valid := by
    refine ⟨by norm_num, by norm_num, by norm_num, by norm_num⟩
  exact ⟨hv, by norm_num, by norm_num, by norm_num,
    claim4_price_curve _ _ _ hv (by norm_num) (by norm_num) (by norm_num)⟩

/-- Counterexample to C4 as stated: at the valid base S=0.005 (with K=100,
T=1, r=0.05, sigma=0.2), range 0.005 > 0 and n=2 ≥ 2, the clamp gives
start = max(0.01, 0) = 0.01 = end, step = 0, and the returned curve has the
constant price 0.01 twice — not strictly increasing. -/
theorem claim4_counterexample :
    (OptionParameters.mk (1/200) 100 1 (1/20) (1/5)).is_valid ∧ (0:ℝ) < 1/200 ∧
    (2:ℤ) ≤ 2 ∧
    generate_price_curve (OptionParameters.mk (1/200) 100 1 (1/20) (1/5)) (1/200) 2 =
      Except.ok
        [((1/100 : ℝ), call_price_core (OptionParameters.mk (1/100) 100 1 (1/20) (1/5)),
            put_price_core (OptionParameters.mk (1/100) 100 1 (1/20) (1/5))),
          ((1/100 : ℝ), call_price_core (OptionParameters.mk (1/100) 100 1 (1/20) (1/5)),
            put_price_core (OptionParameters.mk (1/100) 100 1 (1/20) (1/5)))] ∧
    ¬ ((1/100 : ℝ) < (1/100 : ℝ)) := by
  have hv : (OptionParameters.mk (1/200) 100 1 (1/20) (1/5)).is_valid := by
    refine ⟨by norm_num, by norm_num, by norm_num, by norm_num⟩
  have hstart : curve_start (OptionParameters.mk (1/200) 100 1 (1/20) (1/5)) (1/200) =
      1/100 := by
    rw [curve_start]
    rw [show ((OptionParameters.mk (1/200) 100 1 (1/20) (1/5) :
      OptionParameters).underlying_price - 1/200 : ℝ) = 0 by norm_num]
    rw [max_eq_left (by norm_num : (0:ℝ) ≤ 0.01)]
    norm_num
  have hstepz : curve_step_val (OptionParameters.mk (1/200) 100 1 (1/20) (1/5)) (1/200) 2
      = 0 := by
    rw [curve_step_val, hstart, curve_end]
    norm_num
  have hs : ∀ i : ℕ,
      curve_sample (OptionParameters.mk (1/200) 100 1 (1/20) (1/5)) (1/200) 2 i = 1/100 := by
    intro i
    rw [curve_sample, hstart, hstepz]
    ring
  have hok := generate_price_curve_eq_ok (OptionParameters.mk (1/200) 100 1 (1/20) (1/5))
    (1/200) 2 le_rfl (fun i _ => by rw [hs i]; norm_num)
    (by norm_num) (by norm_num) (by norm_num)
  refine ⟨hv, by norm_num, le_rfl, ?_, by norm_num⟩
  rw [hok]
  refine congrArg Except.ok ?_
  rw [curveList, show ((2:ℤ)).toNat = 2 from rfl,
    show List.range 2 = [0, 1] from rfl, List.map_cons, List.map_cons, List.map_nil]
  rw [curve_params, curve_params, hs 0, hs 1]

/-! ### Claim C9: the CDF approximation stays in the unit interval -/

lemma hornerR_nonneg {t : ℝ} (h0 : 0 ≤ t) (h1 : t ≤ 1) :
    0 ≤ a1 + a2 * t + a3 * t^2 + a4 * t^3 + a5 * t^4 := by
  simp only [a1, a2, a3, a4, a5]
  nlinarith [sq_nonneg (t^2 - 0.6845*t + 0.1), sq_nonneg (t - 0.1),
    mul_nonneg (mul_nonneg h0 h0) (sub_nonneg.mpr h1), h0]

lemma hornerP_nonneg {t : ℝ} (h0 : 0 ≤ t) (h1 : t ≤ 1) : 0 ≤ hornerP t := by
  have hR := hornerR_nonneg h0 h1
  have hm := mul_nonneg h0 hR
  simp only [hornerP]
  nlinarith [hm]

lemma hornerP_le_one {t : ℝ} (h0 : 0 ≤ t) (h1 : t ≤ 1) : hornerP t ≤ 1 := by
  have hcube : (0:ℝ) ≤ (1 - t) * (1 + t + t^2) :=
    mul_nonneg (sub_nonneg.mpr h1) (by positivity)
  have hQ : (0:ℝ) ≤ 999999999/1000000000 + (745170407/1000000000)*t +
      (1029667143/1000000000)*t^2 + (-391746598/1000000000)*t^3 +
      (1061405429/1000000000)*t^4 := by
    nlinarith [hcube, h0, mul_nonneg h0 h0,
      mul_nonneg (mul_nonneg (mul_nonneg h0 h0) h0) h0]
  have hfac := mul_nonneg (sub_nonneg.mpr h1) hQ
  simp only [hornerP, a1, a2, a3, a4, a5]
  nlinarith [hfac]

/-- The implementation's normal CDF always lies in the closed unit interval
(the Horner polynomial stays in [0,1] on the reachable t's, and the
exponential factor lies in (0,1]). -/
lemma normal_cdf_bounds (x : ℝ) : 0 ≤ normal_cdf x ∧ normal_cdf x ≤ 1 := by
  have hp : (0:ℝ) < p := by rw [p]; norm_num
  rcases lt_or_le x 0 with hx | hx
  · rw [normal_cdf_of_neg hx]
    have hu0 : (0:ℝ) ≤ -x := by linarith
    have hden : (0:ℝ) < 1 + p * -x := by nlinarith [mul_nonneg hp.le hu0]
    have ht0 : (0:ℝ) ≤ 1 / (1 + p * -x) := by positivity
    have ht1 : 1 / (1 + p * -x) ≤ 1 := by
      rw [div_le_one hden]
      nlinarith [mul_nonneg hp.le hu0]
    have hP0 := hornerP_nonneg ht0 ht1
    have hP1 := hornerP_le_one ht0 ht1
    have hE0 : (0:ℝ) < Real.exp (-(-x * -x) / 2) := Real.exp_pos _
    have hE1 : Real.exp (-(-x * -x) / 2) ≤ 1 := by
      rw [show (1:ℝ) = Real.exp 0 from Real.exp_zero.symm]
      exact Real.exp_le_exp.mpr (by nlinarith [sq_nonneg x])
    have hprod0 : 0 ≤ hornerP (1 / (1 + p * -x)) * Real.exp (-(-x * -x) / 2) :=
      mul_nonneg hP0 hE0.le
    have hprod1 : hornerP (1 / (1 + p * -x)) * Real.exp (-(-x * -x) / 2) ≤ 1 :=
      mul_le_one₀ hP1 hE0.le hE1
    constructor <;> nlinarith [hprod0, hprod1]
  · rw [normal_cdf_of_nonneg hx]
    have hden : (0:ℝ) < 1 + p * x := by nlinarith [mul_nonneg hp.le hx]
    have ht0 : (0:ℝ) ≤ 1 / (1 + p * x) := by positivity
    have ht1 : 1 / (1 + p * x) ≤ 1 := by
      rw [div_le_one hden]
      nlinarith [mul_nonneg hp.le hx]
    have hP0 := hornerP_nonneg ht0 ht1
    have hP1 := hornerP_le_one ht0 ht1
    have hE0 : (0:ℝ) < Real.exp (-(x * x) / 2) := Real.exp_pos _
    have hE1 : Real.exp (-(x * x) / 2) ≤ 1 := by
      rw [show (1:ℝ) = Real.exp 0 from Real.exp_zero.symm]
      exact Real.exp_le_exp.mpr (by nlinarith [sq_nonneg x])
    have hprod0 : 0 ≤ hornerP (1 / (1 + p * x)) * Real.exp (-(x * x) / 2) :=
      mul_nonneg hP0 hE0.le
    have hprod1 : hornerP (1 / (1 + p * x)) * Real.exp (-(x * x) / 2) ≤ 1 :=
      mul_le_one₀ hP1 hE0.le hE1
    constructor <;> nlinarith [hprod0, hprod1]

/-- Claim C9: for every real input, `normal_cdf x` lies in [0, 1]; hence
for every valid parameter set, `delta_call` lies in [0, 1] and `delta_put`
lies in [-1, 0]. -/
theorem claim9_cdf_delta_bounds :
    (∀ x : ℝ, 0 ≤ normal_cdf x ∧ normal_cdf x ≤ 1) ∧
    (∀ q : OptionParameters, q.is_valid →
      0 ≤ (calculate_prices_core q).delta_call ∧
      (calculate_prices_core q).delta_call ≤ 1 ∧
      -1 ≤ (calculate_prices_core q).delta_put ∧
      (calculate_prices_core q).delta_put ≤ 0) := by
  refine ⟨normal_cdf_bounds, ?_⟩
  intro q _
  have hdc : (calculate_prices_core q).delta_call =
      normal_cdf (calculate_d1 q.underlying_price q.strike_price q.time_to_expiration
        q.risk_free_rate q.volatility) := rfl
  have hdp : (calculate_prices_core q).delta_put =
      normal_cdf (calculate_d1 q.underlying_price q.strike_price q.time_to_expiration
        q.risk_free_rate q.volatility) - 1 := rfl
  have hb := normal_cdf_bounds (calculate_d1 q.underlying_price q.strike_price
    q.time_to_expiration q.risk_free_rate q.volatility)
  rw [hdc, hdp]
  exact ⟨hb.1, hb.2, by linarith [hb.1], by linarith [hb.2]⟩

/-- Witness for C9 at x = 0 and at the concrete valid parameters
S=100, K=105, T=2, r=0.05, sigma=0.2. -/
theorem claim9_witness :
    (0 ≤ normal_cdf 0 ∧ normal_cdf 0 ≤ 1) ∧
    ((OptionParameters.mk 100 105 2 (1/20) (1/5)).is_valid ∧
      0 ≤ (calculate_prices_core (OptionParameters.mk 100 105 2 (1/20) (1/5))).delta_call ∧
      (calculate_prices_core (OptionParameters.mk 100 105 2 (1/20) (1/5))).delta_call ≤ 1 ∧
      -1 ≤ (calculate_prices_core (OptionParameters.mk 100 105 2 (1/20) (1/5))).delta_put ∧
      (calculate_prices_core (OptionParameters.mk 100 105 2 (1/20) (1/5))).delta_put ≤ 0) := by
  have hv : (OptionParameters.mk 100 105 2 (1/20) (1/5)).is_valid := by
    refine ⟨by norm_num, by norm_num, by norm_num, by norm_num⟩
  exact ⟨claim9_cdf_delta_bounds.1 0, hv, claim9_cdf_delta_bounds.2 _ hv⟩


/-! ### Claim C8: monotonicity in the underlying price fails -/

lemma exp_le_one_add_add_sq {x : ℝ} (hx : |x| ≤ 1) : Real.exp x ≤ 1 + x + x^2 := by
  have h := Real.abs_exp_sub_one_sub_id_le hx
  have h2 := (abs_le.mp h).2
  linarith

/-- Claim C8 evaluated at a failing input: with K=1, T=1, r = -5e-11,
sigma = 1e-5, the two valid underlyings S1 = exp(9e-11) < S2 = exp(73e-11)
give call_price(S2) < call_price(S1): the call price of the code is NOT
non-decreasing in S.  (The cause is the accuracy bug in `normal_cdf`: its
slope at 0 is about 0.5642 instead of phi(0) = 0.3989, so near d1 = 0 the
derivative of the computed call price dips below zero.) -/
theorem claim8_monotonicity_failure :
    (OptionParameters.mk (Real.exp (9/100000000000)) 1 1 (-(1/20000000000)) (1/100000)).is_valid ∧
    (OptionParameters.mk (Real.exp (73/100000000000)) 1 1 (-(1/20000000000)) (1/100000)).is_valid ∧
    Real.exp (9/100000000000) < Real.exp (73/100000000000) ∧
    call_price_core (OptionParameters.mk (Real.exp (73/100000000000)) 1 1 (-(1/20000000000)) (1/100000)) <
      call_price_core (OptionParameters.mk (Real.exp (9/100000000000)) 1 1 (-(1/20000000000)) (1/100000)) := by
  refine ⟨⟨Real.exp_pos _, by norm_num, by norm_num, by norm_num⟩,
    ⟨Real.exp_pos _, by norm_num, by norm_num, by norm_num⟩,
    Real.exp_lt_exp.mpr (by norm_num), ?_⟩
  have hd1a : calculate_d1 (Real.exp (9/100000000000)) 1 1 (-(1/20000000000)) (1/100000) = 9/1000000 := by
    rw [calculate_d1, Real.sqrt_one, div_one, Real.log_exp]
    norm_num
  have hd1b : calculate_d1 (Real.exp (73/100000000000)) 1 1 (-(1/20000000000)) (1/100000) = 73/1000000 := by
    rw [calculate_d1, Real.sqrt_one, div_one, Real.log_exp]
    norm_num
  have hd2a : calculate_d2 (9/1000000 : ℝ) (1/100000) 1 = -(1/1000000) := by
    rw [calculate_d2, Real.sqrt_one]
    norm_num
  have hd2b : calculate_d2 (73/1000000 : ℝ) (1/100000) 1 = 63/1000000 := by
    rw [calculate_d2, Real.sqrt_one]
    norm_num
  have hP1 : hornerP (10000000000000/10000029483199 : ℝ) = 14285779787721287816591528700821071356723344296139300856988560000/14285924881234659408758650900852099310878759588989637089286430857 := by
    rw [hornerP, a1, a2, a3, a4, a5]
    norm_num
  have hP2 : hornerP (10000000000000/10000239141503 : ℝ) = 100003719874644095265588071854604933812964629741205419581409520000/100011957647050260916255989246654581557860037282934533034109807743 := by
    rw [hornerP, a1, a2, a3, a4, a5]
    norm_num
  have hP3 : hornerP (10000000000000/10000206382393 : ℝ) = 100003210274899243726377601527170523800418335318829503406727920000/100010319545595712082886637306127075613170808804933617459303895193 := by
    rw [hornerP, a1, a2, a3, a4, a5]
    norm_num
  have hP4 : hornerP (10000000000000/10000003275911 : ℝ) = 100000050856936532273987004969604286403278713019132354078036720000/100000163795657315963954958921209547326678151073151548846883520551 := by
    rw [hornerP, a1, a2, a3, a4, a5]
    norm_num
  have hN1 : normal_cdf (9/1000000 : ℝ) = 1 - (14285779787721287816591528700821071356723344296139300856988560000/14285924881234659408758650900852099310878759588989637089286430857) / 2 * Real.exp (-(81/2000000000000)) := by
    rw [normal_cdf_of_nonneg (by norm_num : (0:ℝ) ≤ 9/1000000)]
    rw [show (1 / (1 + p * (9/1000000)) : ℝ) = 10000000000000/10000029483199 by rw [p]; norm_num]
    rw [hP1, show (-((9/1000000 : ℝ) * (9/1000000)) / 2) = -(81/2000000000000) by norm_num]
    ring
  have hN2 : normal_cdf (73/1000000 : ℝ) = 1 - (100003719874644095265588071854604933812964629741205419581409520000/100011957647050260916255989246654581557860037282934533034109807743) / 2 * Real.exp (-(5329/2000000000000)) := by
    rw [normal_cdf_of_nonneg (by norm_num : (0:ℝ) ≤ 73/1000000)]
    rw [show (1 / (1 + p * (73/1000000)) : ℝ) = 10000000000000/10000239141503 by rw [p]; norm_num]
    rw [hP2, show (-((73/1000000 : ℝ) * (73/1000000)) / 2) = -(5329/2000000000000) by norm_num]
    ring
  have hN3 : normal_cdf (63/1000000 : ℝ) = 1 - (100003210274899243726377601527170523800418335318829503406727920000/100010319545595712082886637306127075613170808804933617459303895193) / 2 * Real.exp (-(3969/2000000000000)) := by
    rw [normal_cdf_of_nonneg (by norm_num : (0:ℝ) ≤ 63/1000000)]
    rw [show (1 / (1 + p * (63/1000000)) : ℝ) = 10000000000000/10000206382393 by rw [p]; norm_num]
    rw [hP3, show (-((63/1000000 : ℝ) * (63/1000000)) / 2) = -(3969/2000000000000) by norm_num]
    ring
  have hN4 : normal_cdf (-(1/1000000) : ℝ) = (100000050856936532273987004969604286403278713019132354078036720000/100000163795657315963954958921209547326678151073151548846883520551) / 2 * Real.exp (-(1/2000000000000)) := by
    rw [normal_cdf_of_neg (by norm_num : (-(1/1000000) : ℝ) < 0)]
    rw [show (1 / (1 + p * - -(1/1000000)) : ℝ) = 10000000000000/10000003275911 by rw [p]; norm_num]
    rw [hP4, show (-(- -(1/1000000 : ℝ) * - -(1/1000000)) / 2) = -(1/2000000000000) by norm_num]
    ring
  have hC1 : call_price_core (OptionParameters.mk (Real.exp (9/100000000000)) 1 1 (-(1/20000000000))
      (1/100000)) =
      Real.exp (9/100000000000) - (14285779787721287816591528700821071356723344296139300856988560000/14285924881234659408758650900852099310878759588989637089286430857) / 2 * Real.exp (99/2000000000000) - (100000050856936532273987004969604286403278713019132354078036720000/100000163795657315963954958921209547326678151073151548846883520551) / 2 * Real.exp (99/2000000000000) := by
    simp only [call_price_core]
    rw [hd1a, hd2a, hN1, hN4]
    rw [show (-(-(1/20000000000)) * (1:ℝ)) = 1/20000000000 by norm_num]
    rw [show Real.exp (9/100000000000) * (1 - (14285779787721287816591528700821071356723344296139300856988560000/14285924881234659408758650900852099310878759588989637089286430857) / 2 * Real.exp (-(81/2000000000000))) =
      Real.exp (9/100000000000) - (14285779787721287816591528700821071356723344296139300856988560000/14285924881234659408758650900852099310878759588989637089286430857) / 2 * Real.exp (99/2000000000000) by
        rw [show (99/2000000000000 : ℝ) = 9/100000000000 + (-(81/2000000000000)) by norm_num, Real.exp_add]
        ring]
    rw [show (1:ℝ) * Real.exp (1/20000000000) * ((100000050856936532273987004969604286403278713019132354078036720000/100000163795657315963954958921209547326678151073151548846883520551) / 2 * Real.exp (-(1/2000000000000))) =
      (100000050856936532273987004969604286403278713019132354078036720000/100000163795657315963954958921209547326678151073151548846883520551) / 2 * Real.exp (99/2000000000000) by
        rw [show (99/2000000000000 : ℝ) = 1/20000000000 + (-(1/2000000000000)) by norm_num, Real.exp_add]
        ring]
  have hC2 : call_price_core (OptionParameters.mk (Real.exp (73/100000000000)) 1 1 (-(1/20000000000))
      (1/100000)) =
      Real.exp (73/100000000000) - (100003719874644095265588071854604933812964629741205419581409520000/100011957647050260916255989246654581557860037282934533034109807743) / 2 * Real.exp (-(3869/2000000000000)) - Real.exp (1/20000000000) +
        (100003210274899243726377601527170523800418335318829503406727920000/100010319545595712082886637306127075613170808804933617459303895193) / 2 * Real.exp (-(3869/2000000000000)) := by
    simp only [call_price_core]
    rw [hd1b, hd2b, hN2, hN3]
    rw [show (-(-(1/20000000000)) * (1:ℝ)) = 1/20000000000 by norm_num]
    rw [show Real.exp (73/100000000000) * (1 - (100003719874644095265588071854604933812964629741205419581409520000/100011957647050260916255989246654581557860037282934533034109807743) / 2 * Real.exp (-(5329/2000000000000))) =
      Real.exp (73/100000000000) - (100003719874644095265588071854604933812964629741205419581409520000/100011957647050260916255989246654581557860037282934533034109807743) / 2 * Real.exp (-(3869/2000000000000)) by
        rw [show (-(3869/2000000000000) : ℝ) = 73/100000000000 + (-(5329/2000000000000)) by norm_num, Real.exp_add]
        ring]
    rw [show (1:ℝ) * Real.exp (1/20000000000) * (1 - (100003210274899243726377601527170523800418335318829503406727920000/100010319545595712082886637306127075613170808804933617459303895193) / 2 * Real.exp (-(3969/2000000000000))) =
      Real.exp (1/20000000000) - (100003210274899243726377601527170523800418335318829503406727920000/100010319545595712082886637306127075613170808804933617459303895193) / 2 * Real.exp (-(3869/2000000000000)) by
        rw [show (-(3869/2000000000000) : ℝ) = 1/20000000000 + (-(3969/2000000000000)) by norm_num, Real.exp_add]
        ring]
    ring
  have bA1l : 1 + (9/100000000000 : ℝ) ≤ Real.exp (9/100000000000) := by
    linarith [Real.add_one_le_exp (9/100000000000 : ℝ)]
  have bA1u : Real.exp (9/100000000000 : ℝ) ≤ 1 + 9/100000000000 + (9/100000000000 : ℝ)^2 :=
    exp_le_one_add_add_sq (by rw [abs_of_nonneg (by norm_num : (0:ℝ) ≤ 9/100000000000)]; norm_num)
  have bA2l : 1 + (73/100000000000 : ℝ) ≤ Real.exp (73/100000000000) := by
    linarith [Real.add_one_le_exp (73/100000000000 : ℝ)]
  have bA2u : Real.exp (73/100000000000 : ℝ) ≤ 1 + 73/100000000000 + (73/100000000000 : ℝ)^2 :=
    exp_le_one_add_add_sq (by rw [abs_of_nonneg (by norm_num : (0:ℝ) ≤ 73/100000000000)]; norm_num)
  have bC0l : 1 + (1/20000000000 : ℝ) ≤ Real.exp (1/20000000000) := by
    linarith [Real.add_one_le_exp (1/20000000000 : ℝ)]
  have bC0u : Real.exp (1/20000000000 : ℝ) ≤ 1 + 1/20000000000 + (1/20000000000 : ℝ)^2 :=
    exp_le_one_add_add_sq (by rw [abs_of_nonneg (by norm_num : (0:ℝ) ≤ 1/20000000000)]; norm_num)
  have bL1l : 1 + (99/2000000000000 : ℝ) ≤ Real.exp (99/2000000000000) := by
    linarith [Real.add_one_le_exp (99/2000000000000 : ℝ)]
  have bL1u : Real.exp (99/2000000000000 : ℝ) ≤ 1 + 99/2000000000000 + (99/2000000000000 : ℝ)^2 :=
    exp_le_one_add_add_sq (by rw [abs_of_nonneg (by norm_num : (0:ℝ) ≤ 99/2000000000000)]; norm_num)
  have bL2l : 1 + (-(3869/2000000000000) : ℝ) ≤ Real.exp (-(3869/2000000000000)) := by
    linarith [Real.add_one_le_exp (-(3869/2000000000000) : ℝ)]
  have bL2u : Real.exp (-(3869/2000000000000) : ℝ) ≤ 1 + (-(3869/2000000000000)) + (-(3869/2000000000000) : ℝ)^2 :=
    exp_le_one_add_add_sq (by rw [abs_of_nonpos (by norm_num : (-(3869/2000000000000) : ℝ) ≤ 0)]; norm_num)
  rw [hC1, hC2]
  nlinarith [bA1l, bA1u, bA2l, bA2u, bC0l, bC0u, bL1l, bL1u, bL2l, bL2u]

end BlackScholes
